import Mathlib

/-!
# Verification of the smartinspect-python library against its specification

This file shallowly embeds the parts of the `smartinspect` Python package that
the specification talks about: the binary packet formatter
(`smartinspect/formatter.py`), the backlog `PacketQueue` and the `TcpProtocol`
send/flush logic (`smartinspect/protocol.py`), and the connection-string
parsing and `connect` wiring of `smartinspect/smartinspect.py`.

Modelling conventions:
* Python `int` is `Int`; byte strings are `List Nat` (each element < 256 for
  the strings the code produces); `struct.pack` range errors and raised Python
  exceptions are `Except PyError`.
* Python's `%` on a positive modulus agrees with `Int.emod`, and `v &
  0xFFFFFFFF` on an arbitrary Python integer equals `Int.emod v (2 ^ 32)`.
* IEEE-754 serialization of the timestamp double is abstracted: a packet
  carries `timestamp8`, the byte string that
  `struct.pack("<d", date_to_timestamp(timestamp))` yields.  No claim in this
  development depends on those byte values, only on their position.
* Packet dictionaries are modelled by the `Packet` structure whose field types
  are the union of the types the library itself stores under each key; the
  `"data"` key legitimately holds `bytes` (LogEntry/ControlCommand) or `str`
  (Stream), hence `DataVal`.
-/

/-- Raised Python exceptions, by class (plus a payload for the backlog-overflow
message and an opaque code for externally injected send failures). -/
inductive PyError where
  | connectionError
  | valueError
  | typeError
  | attributeError
  | structError
  | backlogOverflow (n : Nat)
  | exn (code : Nat)
deriving DecidableEq, Repr

deriving instance DecidableEq for Except

/-- Little-endian bytes of `n % 2^16` (the two base-256 digits). -/
def le2 (n : Nat) : List Nat := [n % 256, n / 256 % 256]

/-- Little-endian bytes of `n % 2^32` (the four base-256 digits). -/
def le4 (n : Nat) : List Nat :=
  [n % 256, n / 256 % 256, n / 65536 % 256, n / 16777216 % 256]

/-- Model of `struct.pack("<h", v)`: two's-complement little-endian 16-bit encoding;
raises `struct.error` when `v` is out of range.  For in-range `v` the two
bytes are the base-256 digits of `v mod 2^16`. -/
def structPackI16 (v : Int) : Except PyError (List Nat) :=
  if -32768 ≤ v ∧ v ≤ 32767 then .ok (le2 (v % 65536).toNat)
  else .error .structError

/-- Model of `struct.pack("<i", v)`: two's-complement little-endian 32-bit encoding;
raises `struct.error` when `v` is out of range. -/
def structPackI32 (v : Int) : Except PyError (List Nat) :=
  if -2147483648 ≤ v ∧ v ≤ 2147483647 then .ok (le4 (v % 4294967296).toNat)
  else .error .structError

/-- Model of `struct.pack("<I", v)`: little-endian unsigned 32-bit encoding; raises
`struct.error` when `v` is out of range. -/
def structPackU32 (v : Int) : Except PyError (List Nat) :=
  if 0 ≤ v ∧ v ≤ 4294967295 then .ok (le4 v.toNat)
  else .error .structError

namespace BinaryFormatter

/-- Model of `BinaryFormatter.write_int16`: `struct.pack("<h", value)` directly. -/
def write_int16 (value : Int) : Except PyError (List Nat) :=
  structPackI16 value

/-- Model of `BinaryFormatter.write_int32`: truncate to 32 bits with
`value & 0xFFFFFFFF`, re-interpret values above `0x7FFFFFFF` as negative, then
`struct.pack("<i", value)`. -/
def write_int32 (value : Int) : Except PyError (List Nat) :=
  let v1 := value % 4294967296
  let v2 := if 2147483647 < v1 then v1 - 4294967296 else v1
  structPackI32 v2

/-- Model of `BinaryFormatter.write_uint32`: `struct.pack("<I", value & 0xFFFFFFFF)`. -/
def write_uint32 (value : Int) : Except PyError (List Nat) :=
  structPackU32 (value % 4294967296)

/-- Model of `BinaryFormatter.write_double`: the IEEE-754 little-endian bytes of the
timestamp double are abstracted to the byte string carried by the packet. -/
def write_double (timestampBytes : List Nat) : List Nat := timestampBytes

end BinaryFormatter

theorem emod_2pow32_nonneg (v : Int) : 0 ≤ v % 4294967296 :=
  Int.emod_nonneg v (by norm_num)

theorem emod_2pow32_lt (v : Int) : v % 4294967296 < 4294967296 :=
  Int.emod_lt_of_pos v (by norm_num)

/-- Lemma: `write_int32` never raises: it always produces the four little-endian
base-256 digits of `value mod 2^32`. -/
theorem write_int32_eq (value : Int) :
    BinaryFormatter.write_int32 value = .ok (le4 (value % 4294967296).toNat) := by
  unfold BinaryFormatter.write_int32
  have h0 : 0 ≤ value % 4294967296 := emod_2pow32_nonneg value
  have h1 : value % 4294967296 < 4294967296 := emod_2pow32_lt value
  by_cases h : 2147483647 < value % 4294967296
  · simp only [h, if_true]
    unfold structPackI32
    rw [if_pos (by constructor <;> omega)]
    have hx : (value % 4294967296 - 4294967296) % 4294967296
        = value % 4294967296 := by omega
    rw [hx]
  · simp only [h, if_false]
    unfold structPackI32
    rw [if_pos (by constructor <;> omega)]
    have hx : (value % 4294967296) % 4294967296
        = value % 4294967296 := by omega
    rw [hx]

/-- Lemma: `write_uint32` never raises. -/
theorem write_uint32_eq (value : Int) :
    BinaryFormatter.write_uint32 value = .ok (le4 (value % 4294967296).toNat) := by
  unfold BinaryFormatter.write_uint32 structPackU32
  have h0 : 0 ≤ value % 4294967296 := emod_2pow32_nonneg value
  have h1 : value % 4294967296 < 4294967296 := emod_2pow32_lt value
  rw [if_pos (by constructor <;> omega)]

theorem toNat_emod_cast (n : Nat) :
    ((n : Int) % 4294967296).toNat = n % 4294967296 := by
  omega

/-- C10: For every integer `v` (including values outside the signed 32-bit
range, such as large Python thread IDs), `BinaryFormatter.write_int32` encodes
`v` modulo `2^32`, reinterpreted as a signed two's-complement 32-bit value, as
4 little-endian bytes, and never raises on out-of-range input.  (For an
in-range signed value the two's-complement byte string equals the base-256
little-endian digits of the value taken mod `2^32`, which is what `le4`
computes.) -/
theorem write_int32_truncates_mod_2pow32 (v : Int) :
    BinaryFormatter.write_int32 v = .ok (le4 (v % 4294967296).toNat) ∧
      (le4 (v % 4294967296).toNat).length = 4 :=
  ⟨write_int32_eq v, rfl⟩

/-- UTF-8 encoding of a single code point (standard 1-4 byte forms; Lean
`Char` excludes surrogates, as does Python's `str`). -/
def utf8Char (c : Nat) : List Nat :=
  if c < 128 then [c]
  else if c < 2048 then [192 + c / 64, 128 + c % 64]
  else if c < 65536 then [224 + c / 4096, 128 + c / 64 % 64, 128 + c % 64]
  else [240 + c / 262144, 128 + c / 4096 % 64, 128 + c / 64 % 64, 128 + c % 64]

/-- Model of `s.encode("utf-8")` as a byte list. -/
def utf8 (s : String) : List Nat :=
  (s.data.map (fun c => utf8Char c.toNat)).flatten

/-- The value found under the `"data"` key of a packet dictionary: the library
stores `bytes` there for LogEntry/ControlCommand packets and `str` for Stream
packets. -/
inductive DataVal where
  | bytes (b : List Nat)
  | str (s : String)
deriving DecidableEq, Repr

/-- A packet dictionary.  Field types are the types the library stores under
the corresponding keys; `none` is an absent key.  Keys the formatter and the
queue read with an integer default (`packet.get(key, 0)`) are modelled as
defaulted `Int` fields.  `timestamp8` abstracts the `"timestamp"` value to the
8 bytes its double serialization produces. -/
structure Packet where
  packet_type : Option Int := none
  content : Option String := none
  app_name : Option String := none
  session_name : Option String := none
  title : Option String := none
  host_name : Option String := none
  data : Option DataVal := none
  log_entry_type : Int := 0
  viewer_id : Int := 0
  process_id : Int := 0
  thread_id : Int := 0
  timestamp8 : List Nat := [0, 0, 0, 0, 0, 0, 0, 0]
  color : Option (Nat × Nat × Nat × Nat) := none
  name : Option String := none
  value : Option String := none
  group : Option String := none
  watch_type : Int := 0
  process_flow_type : Int := 0
  control_command_type : Int := 0
  channel : Option String := none
  stream_type : Option String := none
deriving DecidableEq, Repr

/- `PacketType` tag constants from `enums.py`. -/
namespace PacketType

def CONTROL_COMMAND : Int := 1
def LOG_ENTRY : Int := 4
def WATCH : Int := 5
def PROCESS_FLOW : Int := 6
def LOG_HEADER : Int := 7
def STREAM : Int := 8

end PacketType

/-- Model of `SI_DEFAULT_COLOR_VALUE` from `enums.py`. -/
def SI_DEFAULT_COLOR_VALUE : Nat := 0xFF000005

namespace BinaryFormatter

/-- Model of `encode_string(packet.get(key, ""))`: an absent key defaults to the empty
string; present strings are UTF-8 encoded. -/
def encStr (o : Option String) : List Nat := utf8 (o.getD "")

/-- Model of `len(b) if b else 0` for a byte string (`b""` is falsy). -/
def lenB (b : List Nat) : Nat := if b.isEmpty then 0 else b.length

/-- Model of `parts.append(b)` guarded by `if b:` — an empty byte string contributes
nothing to the join. -/
def tailB (b : List Nat) : List Nat := if b.isEmpty then [] else b

/-- Model of `len(data_bytes) if data_bytes else 0` where `data_bytes` is the raw
`"data"` value: `len` of a `str` counts characters, `len` of `bytes` counts
bytes; `None`, `b""` and `""` are falsy. -/
def pyLenData : Option DataVal → Nat
  | none => 0
  | some (.bytes b) => if b.isEmpty then 0 else b.length
  | some (.str s) => if s = "" then 0 else s.length

/-- Appending the raw `"data"` value to the list joined by `b"".join(parts)`:
a truthy `str` element makes the join raise `TypeError`
(`sequence item: expected a bytes-like object, str found`). -/
def dataTailJoin : Option DataVal → Except PyError (List Nat)
  | none => .ok []
  | some (.bytes b) => .ok (if b.isEmpty then [] else b)
  | some (.str s) => if s = "" then .ok [] else .error .typeError

/-- Model of `encode_string(packet.get("data", ""))` in `compile_stream`: `bytes` has
no `.encode` method, so a `bytes` value raises `AttributeError`. -/
def streamDataEnc : Option DataVal → Except PyError (List Nat)
  | none => .ok (utf8 "")
  | some (.str s) => .ok (utf8 s)
  | some (.bytes _) => .error .attributeError

/-- Model of `color_to_int`: `None` yields `SI_DEFAULT_COLOR_VALUE`; a `Color` tuple or
an `{r, g, b, a}` dict both yield `(r | g << 8 | b << 16 | a << 24) &
0xFFFFFFFF`. -/
def color_to_int : Option (Nat × Nat × Nat × Nat) → Nat
  | none => SI_DEFAULT_COLOR_VALUE
  | some (r, g, b, a) =>
      (Nat.lor (Nat.lor (Nat.lor r (Nat.shiftLeft g 8)) (Nat.shiftLeft b 16))
        (Nat.shiftLeft a 24)) % 4294967296

/-- Model of `BinaryFormatter.compile_log_header`: `[contentLen(4)] [content]`. -/
def compile_log_header (p : Packet) : Except PyError (List Nat) := do
  let content_bytes := encStr p.content
  let w0 ← write_int32 (lenB content_bytes : Int)
  .ok (w0 ++ tailB content_bytes)

/-- Model of `BinaryFormatter.compile_log_entry`:
`[logEntryType(4)] [viewerId(4)] [appNameLen(4)] [sessionNameLen(4)]
[titleLen(4)] [hostNameLen(4)] [dataLen(4)] [processId(4)] [threadId(4)]
[timestamp(8)] [color(4)] [appName] [sessionName] [title] [hostName]
[data]`. -/
def compile_log_entry (p : Packet) : Except PyError (List Nat) := do
  let app_name_bytes := encStr p.app_name
  let session_name_bytes := encStr p.session_name
  let title_bytes := encStr p.title
  let host_name_bytes := encStr p.host_name
  let w0 ← write_int32 p.log_entry_type
  let w1 ← write_int32 p.viewer_id
  let w2 ← write_int32 (lenB app_name_bytes : Int)
  let w3 ← write_int32 (lenB session_name_bytes : Int)
  let w4 ← write_int32 (lenB title_bytes : Int)
  let w5 ← write_int32 (lenB host_name_bytes : Int)
  let w6 ← write_int32 (pyLenData p.data : Int)
  let w7 ← write_int32 p.process_id
  let w8 ← write_int32 p.thread_id
  let w9 := write_double p.timestamp8
  let w10 ← write_uint32 (color_to_int p.color : Int)
  let dtail ← dataTailJoin p.data
  .ok (w0 ++ w1 ++ w2 ++ w3 ++ w4 ++ w5 ++ w6 ++ w7 ++ w8 ++ w9 ++ w10 ++
    tailB app_name_bytes ++ tailB session_name_bytes ++ tailB title_bytes ++
    tailB host_name_bytes ++ dtail)

/-- Model of `BinaryFormatter.compile_watch`:
`[nameLen(4)] [valueLen(4)] [watchType(4)] [timestamp(8)] [groupLen(4)]
[name] [value] [group]`. -/
def compile_watch (p : Packet) : Except PyError (List Nat) := do
  let name_bytes := encStr p.name
  let value_bytes := encStr p.value
  let group_bytes := encStr p.group
  let w0 ← write_int32 (lenB name_bytes : Int)
  let w1 ← write_int32 (lenB value_bytes : Int)
  let w2 ← write_int32 p.watch_type
  let w3 := write_double p.timestamp8
  let w4 ← write_int32 (lenB group_bytes : Int)
  .ok (w0 ++ w1 ++ w2 ++ w3 ++ w4 ++
    tailB name_bytes ++ tailB value_bytes ++ tailB group_bytes)

/-- Model of `BinaryFormatter.compile_process_flow`:
`[processFlowType(4)] [titleLen(4)] [hostNameLen(4)] [processId(4)]
[threadId(4)] [timestamp(8)] [title] [hostName]`. -/
def compile_process_flow (p : Packet) : Except PyError (List Nat) := do
  let title_bytes := encStr p.title
  let host_name_bytes := encStr p.host_name
  let w0 ← write_int32 p.process_flow_type
  let w1 ← write_int32 (lenB title_bytes : Int)
  let w2 ← write_int32 (lenB host_name_bytes : Int)
  let w3 ← write_int32 p.process_id
  let w4 ← write_int32 p.thread_id
  let w5 := write_double p.timestamp8
  .ok (w0 ++ w1 ++ w2 ++ w3 ++ w4 ++ w5 ++ tailB title_bytes ++ tailB host_name_bytes)

/-- Model of `BinaryFormatter.compile_control_command`:
`[controlCommandType(4)] [dataLen(4)] [data]`. -/
def compile_control_command (p : Packet) : Except PyError (List Nat) := do
  let w0 ← write_int32 p.control_command_type
  let w1 ← write_int32 (pyLenData p.data : Int)
  let dtail ← dataTailJoin p.data
  .ok (w0 ++ w1 ++ dtail)

/-- Model of `BinaryFormatter.compile_stream`:
`[channelLen(4)] [dataLen(4)] [typeLen(4)] [timestamp(8)] [groupLen(4)]
[channel] [data] [type] [group]`. -/
def compile_stream (p : Packet) : Except PyError (List Nat) := do
  let channel_bytes := encStr p.channel
  let data_bytes ← streamDataEnc p.data
  let type_bytes := encStr p.stream_type
  let group_bytes := encStr p.group
  let w0 ← write_int32 (lenB channel_bytes : Int)
  let w1 ← write_int32 (lenB data_bytes : Int)
  let w2 ← write_int32 (lenB type_bytes : Int)
  let w3 := write_double p.timestamp8
  let w4 ← write_int32 (lenB group_bytes : Int)
  .ok (w0 ++ w1 ++ w2 ++ w3 ++ w4 ++
    tailB channel_bytes ++ tailB data_bytes ++ tailB type_bytes ++ tailB group_bytes)

/-- Model of `BinaryFormatter.compile`: dispatch on `packet.get("packet_type")` with
`==` against the six recognized `PacketType` members; anything else (including
an absent key) compiles to the empty stream.  (The Python method returns the
total size; only the compiled stream is relevant here.) -/
def compile (p : Packet) : Except PyError (List Nat) :=
  if p.packet_type = some PacketType.LOG_HEADER then compile_log_header p
  else if p.packet_type = some PacketType.LOG_ENTRY then compile_log_entry p
  else if p.packet_type = some PacketType.WATCH then compile_watch p
  else if p.packet_type = some PacketType.PROCESS_FLOW then compile_process_flow p
  else if p.packet_type = some PacketType.CONTROL_COMMAND then compile_control_command p
  else if p.packet_type = some PacketType.STREAM then compile_stream p
  else .ok []

/-- Model of `BinaryFormatter.format`: compile, then for a non-empty stream emit
`[packetType(2, via write_int16 of packet.get("packet_type", 0))]
[dataSize(4, via write_int32)] [stream]`; an empty stream yields `b""`. -/
def format (p : Packet) : Except PyError (List Nat) := do
  let s ← compile p
  if 0 < s.length then do
    let h ← write_int16 (p.packet_type.getD 0)
    let l ← write_int32 (s.length : Int)
    .ok (h ++ l ++ s)
  else .ok []

end BinaryFormatter

/-- Model of `PacketQueue.OVERHEAD`: fixed per-entry byte overhead. -/
def OVERHEAD : Nat := 24

/-- Model of `if value:` contribution of a string field to the size estimate: a missing
or empty string contributes nothing, otherwise the UTF-8 byte length. -/
def truthyStrLen : Option String → Nat
  | none => 0
  | some s => if s = "" then 0 else (utf8 s).length

/-- Model of `"data"` contribution to `_get_packet_size`: truthy `bytes` contribute
their length, a truthy `str` contributes its UTF-8 byte length
(`len(str(data).encode("utf-8"))`). -/
def dataSizeEst : Option DataVal → Nat
  | none => 0
  | some (.bytes b) => b.length
  | some (.str s) => if s = "" then 0 else (utf8 s).length

/-- Model of `PacketQueue._get_packet_size`: 64 bytes of base overhead plus the encoded
lengths of the truthy `title`, `app_name`, `session_name`, `host_name`,
`content` and `channel` fields plus the data contribution.  (The `if not
packet: return 0` branch is the empty dictionary, which never occurs for the
packets the library queues — they always carry at least `packet_type`.) -/
def get_packet_size (p : Packet) : Nat :=
  64 + truthyStrLen p.title + truthyStrLen p.app_name +
    truthyStrLen p.session_name + truthyStrLen p.host_name +
    truthyStrLen p.content + truthyStrLen p.channel + dataSizeEst p.data

/-- The byte cost a queued packet adds to `PacketQueue._size`:
`_get_packet_size(packet) + OVERHEAD`. -/
def entrySize (p : Packet) : Int := (get_packet_size p : Int) + (OVERHEAD : Int)

/-- Model of `PacketQueue` state: the linked list of queued packets (head first, i.e.
oldest first), the tracked `_size`, and the `_backlog` limit.  The
`on_packet_dropped` callback is modelled by `push`/`_resize` returning an
`Option Nat` — `some k` is one invocation with argument `k`. -/
structure PacketQueue where
  entries : List Packet
  size : Int
  backlog : Int
deriving DecidableEq, Repr

namespace PacketQueue

/-- Model of `PacketQueue.__init__`: empty queue with the default 2 MB backlog. -/
def new : PacketQueue := { entries := [], size := 0, backlog := 2048 * 1024 }

/-- Model of `PacketQueue._pop_unsafe`: remove the head (oldest) entry, if any, and
deduct its estimated size plus overhead from the tracked size. -/
def pop_unsafe (q : PacketQueue) : Option Packet × PacketQueue :=
  match q.entries with
  | [] => (none, q)
  | p :: rest => (some p, { q with entries := rest, size := q.size - entrySize p })

/-- The loop body of `PacketQueue._resize`: while the backlog limit is below
the tracked size, pop the oldest entry and count it; if the queue runs out
first, force the tracked size to 0.  Returns the remaining entries, the final
tracked size, and the number of entries dropped. -/
def resizeLoop (b : Int) (es : List Packet) (sz : Int) : List Packet × Int × Nat :=
  if b < sz then
    match es with
    | [] => ([], 0, 0)
    | p :: rest =>
        let r := resizeLoop b rest (sz - entrySize p)
        (r.1, r.2.1, r.2.2 + 1)
  else (es, sz, 0)

/-- Model of `PacketQueue._resize`: trim oldest entries until the size is within the
backlog limit; when at least one entry was dropped, invoke the
`on_packet_dropped` callback once with the dropped count (`some k`). -/
def resize (q : PacketQueue) : PacketQueue × Option Nat :=
  let r := resizeLoop q.backlog q.entries q.size
  ({ q with entries := r.1, size := r.2.1 },
   if 0 < r.2.2 then some r.2.2 else none)

/-- Model of `PacketQueue.push`: append the packet at the tail, add its estimated size
plus overhead to the tracked size, then `_resize`. -/
def push (q : PacketQueue) (p : Packet) : PacketQueue × Option Nat :=
  resize { q with entries := q.entries ++ [p], size := q.size + entrySize p }

/-- Model of `PacketQueue.pop`: `_pop_unsafe` under the lock. -/
def pop (q : PacketQueue) : Option Packet × PacketQueue := pop_unsafe q

/-- The `backlog` property setter: store the new limit, then `_resize`. -/
def setBacklog (q : PacketQueue) (b : Int) : PacketQueue × Option Nat :=
  resize { q with backlog := b }

/-- Sum of the entries' estimated sizes (each including `OVERHEAD`), i.e. what
the tracked `_size` is supposed to equal. -/
def qsum (l : List Packet) : Int := (l.map entrySize).sum

end PacketQueue

namespace PacketQueue

theorem qsum_nil : qsum [] = 0 := rfl

theorem qsum_cons (p : Packet) (l : List Packet) :
    qsum (p :: l) = entrySize p + qsum l := by
  simp [qsum]

theorem qsum_append_singleton (l : List Packet) (p : Packet) :
    qsum (l ++ [p]) = qsum l + entrySize p := by
  simp [qsum]

theorem entrySize_nonneg (p : Packet) : 0 ≤ entrySize p := by
  unfold entrySize
  positivity

/-- The resize loop only ever drops entries from the head: the surviving
entries are a `drop` of the originals, and the dropped count is bounded by the
original length. -/
theorem resizeLoop_drop (b : Int) (es : List Packet) (sz : Int) :
    (resizeLoop b es sz).1 = es.drop (resizeLoop b es sz).2.2 ∧
      (resizeLoop b es sz).2.2 ≤ es.length := by
  induction es generalizing sz with
  | nil =>
      unfold resizeLoop
      split <;> simp
  | cons p rest ih =>
      unfold resizeLoop
      split
      · obtain ⟨h1, h2⟩ := ih (sz - entrySize p)
        refine ⟨by simpa [List.drop_succ_cons] using h1, ?_⟩
        simpa using Nat.succ_le_succ h2
      · simp

/-- If the tracked size entering the loop is the sum of the entries' sizes,
the tracked size leaving the loop is the sum of the surviving entries'
sizes. -/
theorem resizeLoop_sum (b : Int) (es : List Packet) (sz : Int)
    (h : sz = qsum es) :
    (resizeLoop b es sz).2.1 = qsum (resizeLoop b es sz).1 := by
  induction es generalizing sz with
  | nil =>
      unfold resizeLoop
      split <;> simp_all [qsum_nil]
  | cons p rest ih =>
      unfold resizeLoop
      split
      · exact ih (sz - entrySize p) (by rw [h, qsum_cons]; ring)
      · exact h
  
/-- For a nonnegative backlog limit, the size leaving the resize loop is
within the limit. -/
theorem resizeLoop_le (b : Int) (es : List Packet) (sz : Int) (hb : 0 ≤ b) :
    (resizeLoop b es sz).2.1 ≤ b := by
  induction es generalizing sz with
  | nil =>
      unfold resizeLoop
      split
      · simpa using hb
      · rename_i h
        show sz ≤ b
        omega
  | cons p rest ih =>
      unfold resizeLoop
      split
      · exact ih (sz - entrySize p)
      · rename_i h
        show sz ≤ b
        omega

theorem resize_backlog (q : PacketQueue) : (q.resize).1.backlog = q.backlog := rfl

theorem push_backlog (q : PacketQueue) (p : Packet) :
    (q.push p).1.backlog = q.backlog := rfl

theorem push_entries_eq (q : PacketQueue) (p : Packet) :
    (q.push p).1.entries =
      (resizeLoop q.backlog (q.entries ++ [p]) (q.size + entrySize p)).1 := rfl

theorem push_size_eq (q : PacketQueue) (p : Packet) :
    (q.push p).1.size =
      (resizeLoop q.backlog (q.entries ++ [p]) (q.size + entrySize p)).2.1 := rfl

theorem push_event_eq (q : PacketQueue) (p : Packet) :
    (q.push p).2 =
      (if 0 < (resizeLoop q.backlog (q.entries ++ [p]) (q.size + entrySize p)).2.2
       then some (resizeLoop q.backlog (q.entries ++ [p]) (q.size + entrySize p)).2.2
       else none) := rfl

end PacketQueue

/-- An observable operation on the backlog queue. -/
inductive QueueOp where
  | push (p : Packet)
  | pop

/-- One `PacketQueue` operation (the state part; callbacks and popped values
are dropped). -/
def PacketQueue.applyOp (q : PacketQueue) : QueueOp → PacketQueue
  | .push p => (q.push p).1
  | .pop => (q.pop).2

/-- The queue as `TcpProtocol` configures it: constructed empty, then the
`backlog` setter is assigned the configured byte limit. -/
def PacketQueue.initQueue (b : Int) : PacketQueue := (PacketQueue.new.setBacklog b).1

/-- State of the backlog queue after a sequence of push/pop operations against
a configured backlog limit `b`. -/
def PacketQueue.runOps (b : Int) (ops : List QueueOp) : PacketQueue :=
  ops.foldl PacketQueue.applyOp (PacketQueue.initQueue b)

namespace PacketQueue

/-- The size-tracking invariant: the tracked byte size equals the sum of the
queued entries' estimated sizes (overhead included) and stays within the
configured backlog limit. -/
def sizeInvariant (q : PacketQueue) (b : Int) : Prop :=
  q.size = qsum q.entries ∧ q.size ≤ q.backlog ∧ q.backlog = b

theorem initQueue_eq (b : Int) :
    initQueue b = { entries := [], size := 0, backlog := b } := by
  unfold initQueue setBacklog resize resizeLoop new
  split <;> rfl

theorem sizeInvariant_initQueue (b : Int) (hb : 0 ≤ b) :
    sizeInvariant (initQueue b) b := by
  rw [initQueue_eq]
  exact ⟨rfl, hb, rfl⟩

theorem sizeInvariant_applyOp (q : PacketQueue) (b : Int) (op : QueueOp)
    (hb : 0 ≤ b) (h : sizeInvariant q b) : sizeInvariant (q.applyOp op) b := by
  obtain ⟨h1, h2, h3⟩ := h
  cases op with
  | push p =>
      refine ⟨?_, ?_, h3⟩
      · rw [applyOp, push_size_eq, push_entries_eq]
        exact resizeLoop_sum _ _ _ (by rw [h1, qsum_append_singleton])
      · rw [applyOp, push_size_eq, push_backlog, h3]
        exact resizeLoop_le _ _ _ (by omega)
  | pop =>
      rw [applyOp]
      unfold pop pop_unsafe
      cases hes : q.entries with
      | nil => exact ⟨h1, h2, h3⟩
      | cons p rest =>
          refine ⟨?_, ?_, h3⟩
          · simp only []
            rw [h1, hes, qsum_cons]
            ring
          · simp only []
            have := entrySize_nonneg p
            omega

theorem sizeInvariant_runOps (b : Int) (hb : 0 ≤ b) (ops : List QueueOp) :
    sizeInvariant (runOps b ops) b := by
  rw [runOps]
  generalize hq : initQueue b = q
  have h : sizeInvariant q b := by rw [← hq]; exact sizeInvariant_initQueue b hb
  clear hq
  induction ops generalizing q with
  | nil => exact h
  | cons op rest ih => exact ih _ (sizeInvariant_applyOp q b op hb h)

end PacketQueue

/-- C1: For every sequence of `PacketQueue.push` and `PacketQueue.pop`
operations against a configured (nonnegative) backlog limit, after each
operation the tracked byte size (`PacketQueue.size`) equals the sum over the
queued entries of the entry's estimated packet size plus the per-entry
`OVERHEAD` constant, and never exceeds the configured `backlog` limit;
moreover every push evicts only oldest entries first: the entries surviving a
push are a tail (`List.drop`) of the pre-push entries with the new packet
appended. -/
theorem packetQueue_size_invariant (b : Int) (hb : 0 ≤ b) (ops : List QueueOp) :
    ((PacketQueue.runOps b ops).size =
        PacketQueue.qsum (PacketQueue.runOps b ops).entries ∧
      (PacketQueue.runOps b ops).size ≤ (PacketQueue.runOps b ops).backlog ∧
      (PacketQueue.runOps b ops).backlog = b) ∧
    ∀ (q : PacketQueue) (p : Packet),
      (q.push p).1.entries =
        (q.entries ++ [p]).drop (q.entries.length + 1 - (q.push p).1.entries.length) := by
  refine ⟨PacketQueue.sizeInvariant_runOps b hb ops, ?_⟩
  intro q p
  obtain ⟨h1, h2⟩ :=
    PacketQueue.resizeLoop_drop q.backlog (q.entries ++ [p]) (q.size + entrySize p)
  simp only [List.length_append, List.length_singleton] at h2
  have hlen : (q.push p).1.entries.length =
      (q.entries.length + 1) -
        (PacketQueue.resizeLoop q.backlog (q.entries ++ [p]) (q.size + entrySize p)).2.2 := by
    rw [PacketQueue.push_entries_eq, h1, List.length_drop]
    simp [List.length_append]
  rw [PacketQueue.push_entries_eq, h1]
  congr 1
  rw [List.length_drop]
  simp only [List.length_append, List.length_singleton]
  omega

/-- C1 witness: a concrete run against a 100-byte backlog limit; the second
push (each entry costs 64 base + title + 24 overhead bytes) overflows the
limit and evicts the oldest entry. -/
theorem packetQueue_size_invariant_witness :
    (0 : Int) ≤ 100 ∧
      ((PacketQueue.runOps 100
          [.push { title := some "a" }, .push { title := some "bc" }, .pop]).size =
        PacketQueue.qsum (PacketQueue.runOps 100
          [.push { title := some "a" }, .push { title := some "bc" }, .pop]).entries ∧
      (PacketQueue.runOps 100
          [.push { title := some "a" }, .push { title := some "bc" }, .pop]).size ≤
        (PacketQueue.runOps 100
          [.push { title := some "a" }, .push { title := some "bc" }, .pop]).backlog ∧
      (PacketQueue.runOps 100
          [.push { title := some "a" }, .push { title := some "bc" }, .pop]).backlog = 100) ∧
    ∀ (q : PacketQueue) (p : Packet),
      (q.push p).1.entries =
        (q.entries ++ [p]).drop (q.entries.length + 1 - (q.push p).1.entries.length) :=
  ⟨by norm_num,
   (packetQueue_size_invariant 100 (by norm_num)
      [.push { title := some "a" }, .push { title := some "bc" }, .pop]).1,
   (packetQueue_size_invariant 100 (by norm_num)
      [.push { title := some "a" }, .push { title := some "bc" }, .pop]).2⟩

/-- C6: A `PacketQueue.push` that evicts `k ≥ 1` entries invokes the
packets-dropped callback exactly once with argument exactly `k` (the callback
result is modelled as `some k`); a push that evicts nothing does not invoke it
(`none`).  The evicted entries are exactly the `k` oldest. -/
theorem packetQueue_push_dropped_callback (q : PacketQueue) (p : Packet) :
    (q.push p).2 =
      (if (q.push p).1.entries.length = q.entries.length + 1 then none
       else some (q.entries.length + 1 - (q.push p).1.entries.length)) ∧
    (q.push p).1.entries =
      (q.entries ++ [p]).drop (q.entries.length + 1 - (q.push p).1.entries.length) := by
  obtain ⟨h1, h2⟩ :=
    PacketQueue.resizeLoop_drop q.backlog (q.entries ++ [p]) (q.size + entrySize p)
  simp only [List.length_append, List.length_singleton] at h2
  have hlen : (q.push p).1.entries.length =
      (q.entries.length + 1) -
        (PacketQueue.resizeLoop q.backlog (q.entries ++ [p]) (q.size + entrySize p)).2.2 := by
    rw [PacketQueue.push_entries_eq, h1, List.length_drop]
    simp [List.length_append]
  constructor
  · rw [PacketQueue.push_event_eq]
    by_cases hk :
        0 < (PacketQueue.resizeLoop q.backlog (q.entries ++ [p]) (q.size + entrySize p)).2.2
    · rw [if_pos hk, if_neg (by omega)]
      congr 1
      omega
    · rw [if_neg hk, if_pos (by omega)]
  · rw [PacketQueue.push_entries_eq, h1]
    congr 1
    rw [List.length_drop]
    simp only [List.length_append, List.length_singleton]
    omega

/-- Observable callback invocations of a `TcpProtocol`.  `errorCb` is the
`on_error` callback (the backlog-overflow handler `_on_backlog_overflow`
reports drops through it as well); `disconnectCb` is `on_disconnect`;
`reconnectAttempt` stands for `_try_reconnect` being entered. -/
inductive TcpEvent where
  | errorCb (e : PyError)
  | disconnectCb
  | reconnectAttempt
deriving DecidableEq, Repr

/-- The event trace produced by the queue's packets-dropped callback, which
`TcpProtocol.__init__` wires to `_on_backlog_overflow`: a batched drop of `k`
packets surfaces as one `on_error` invocation. -/
def dropEvents : Option Nat → List TcpEvent
  | none => []
  | some k => [.errorCb (.backlogOverflow k)]

/-- The `TcpProtocol` configuration flags relevant to packet writing. -/
structure TcpConfig where
  reconnect : Bool
  backlog_enabled : Bool
  backlog_keep_open : Bool
deriving DecidableEq, Repr

/-- Model of `self._keep_open = not backlog_enabled or backlog_keep_open`. -/
def TcpConfig.keepOpen (c : TcpConfig) : Bool :=
  !c.backlog_enabled || c.backlog_keep_open

/-- The mutable `TcpProtocol` state relevant to packet writing: `_connected`,
whether `_socket` is present, and the backlog `_queue`. -/
structure TcpState where
  connected : Bool
  socketPresent : Bool
  queue : PacketQueue
deriving DecidableEq, Repr

namespace TcpProtocol

/-- Model of `TcpProtocol._internal_write_packet`: raise `ConnectionError` when the
socket is gone; format the packet (formatting errors propagate); an empty
formatted buffer means nothing to send; otherwise the result of the
`sendall` + 2-byte-ACK cycle is the externally injected outcome `send`. -/
def internal_write_packet (st : TcpState) (p : Packet)
    (send : Except PyError Unit) : Except PyError Unit :=
  if st.socketPresent = false then .error .connectionError
  else do
    let formatted ← BinaryFormatter.format p
    if formatted.isEmpty then .ok ()
    else send

/-- Model of `TcpProtocol.write_packet`.  Disconnected: drop the packet unless
`reconnect` is set; with backlog enabled, queue it and (when `_keep_open`)
attempt a time-gated reconnect.  Connected: try the internal write; any
exception is caught — `_reset` tears the connection down (`on_disconnect`
fires because `_connected` was true), the packet is re-queued when backlog is
enabled, and `on_error` receives the exception.  The result is `.ok` exactly
when the call returns normally to the caller. -/
def write_packet (cfg : TcpConfig) (st : TcpState) (p : Packet)
    (send : Except PyError Unit) : Except PyError (TcpState × List TcpEvent) :=
  if st.connected = false then
    if cfg.reconnect = false then .ok (st, [])
    else if cfg.backlog_enabled then
      let r := st.queue.push p
      .ok ({ st with queue := r.1 },
        dropEvents r.2 ++ (if cfg.keepOpen then [.reconnectAttempt] else []))
    else .ok (st, [])
  else
    match internal_write_packet st p send with
    | .ok _ => .ok (st, [])
    | .error e =>
        let r := if cfg.backlog_enabled then st.queue.push p else (st.queue, none)
        .ok ({ connected := false, socketPresent := false, queue := r.1 },
          [.disconnectCb] ++ dropEvents r.2 ++ [.errorCb e])

/-- Model of `PacketQueue.get_all`: pop until the queue is empty, returning the popped
packets in order together with the drained queue state. -/
def getAllLoop : List Packet → Int → List Packet × Int
  | [], sz => ([], sz)
  | p :: rest, sz =>
      let r := getAllLoop rest (sz - entrySize p)
      (p :: r.1, r.2)

/-- Model of `PacketQueue.get_all` at the queue level. -/
def get_all (q : PacketQueue) : List Packet × PacketQueue :=
  let r := getAllLoop q.entries q.size
  (r.1, { q with entries := [], size := r.2 })

/-- Model of `list.index(x)` from Python: index of the first element equal to `x`
(callers below only use it when `x` occurs in the list). -/
def pyIndex (l : List Packet) (x : Packet) : Nat :=
  match l with
  | [] => 0
  | p :: rest => if p = x then 0 else pyIndex rest x + 1

/-- Push each packet of `l` in order, collecting drop notifications. -/
def pushAll (q : PacketQueue) (l : List Packet) : PacketQueue × List TcpEvent :=
  match l with
  | [] => (q, [])
  | p :: rest =>
      let r := q.push p
      let r2 := pushAll r.1 rest
      (r2.1, dropEvents r.2 ++ r2.2)

/-- The `for packet in packets:` loop of `TcpProtocol._flush_queue`.
`packets` is the full drained list, `rest` the packets not yet attempted,
`i` the index of the next send attempt into the outcome oracle `out`.  On the
first failure the failed packet is pushed back, then
`packets[packets.index(packet) + 1 :]` — everything after the FIRST occurrence
equal to the failed packet — is pushed back, `_reset` tears the connection
down, `on_error` fires, and the loop breaks.  Returns the queue, whether the
connection survived, and the event trace. -/
def flushLoop (packets : List Packet) (out : Nat → Except PyError Unit) :
    PacketQueue → List Packet → Nat → PacketQueue × Bool × List TcpEvent
  | q, [], _ => (q, true, [])
  | q, p :: rest, i =>
      match out i with
      | .ok _ => flushLoop packets out q rest (i + 1)
      | .error e =>
          let r := q.push p
          let tail := packets.drop (pyIndex packets p + 1)
          let r2 := pushAll r.1 tail
          (r2.1, false,
            dropEvents r.2 ++ r2.2 ++ [.disconnectCb] ++ [.errorCb e])

/-- Model of `TcpProtocol._flush_queue`: drain the queue with `get_all`, then send each
packet in order; a failure re-queues and tears the connection down as in
`flushLoop`.  `out i` is the outcome of the `i`-th `_internal_write_packet`
call. -/
def flush_queue (st : TcpState) (out : Nat → Except PyError Unit) :
    TcpState × List TcpEvent :=
  let drained := get_all st.queue
  let r := flushLoop drained.1 out drained.2 drained.1 0
  ({ connected := if r.2.1 then st.connected else false,
     socketPresent := if r.2.1 then st.socketPresent else false,
     queue := r.1 },
   r.2.2)

end TcpProtocol

/-- C2: When `write_packet` is called while connected and the underlying
send+ack cycle fails with `e`, it does not raise to its caller (the result is
`.ok`): the connection is torn down (`connected` becomes false and
`on_disconnect` fires), the same packet is pushed into the backlog queue when
backlog buffering is enabled, the error callback receives `e`, and the call
returns normally. -/
theorem tcp_write_packet_absorbs_send_failure (cfg : TcpConfig) (st : TcpState)
    (p : Packet) (send : Except PyError Unit) (e : PyError)
    (hc : st.connected = true)
    (hf : TcpProtocol.internal_write_packet st p send = .error e) :
    TcpProtocol.write_packet cfg st p send =
      .ok ({ connected := false, socketPresent := false,
             queue := if cfg.backlog_enabled then (st.queue.push p).1 else st.queue },
        [.disconnectCb] ++
          dropEvents (if cfg.backlog_enabled then (st.queue.push p).2 else none) ++
          [.errorCb e]) := by
  unfold TcpProtocol.write_packet
  rw [hc, if_neg (by decide), hf]
  by_cases hbe : cfg.backlog_enabled <;> simp [hbe]

/-- C2 witness: a connected protocol with backlog enabled, a LogHeader packet
and an injected send failure. -/
theorem tcp_write_packet_absorbs_send_failure_witness :
    TcpProtocol.write_packet ⟨true, true, true⟩ ⟨true, true, PacketQueue.new⟩
        { packet_type := some 7, content := some "x" } (.error (.exn 0)) =
      .ok ({ connected := false, socketPresent := false,
             queue :=
               if (⟨true, true, true⟩ : TcpConfig).backlog_enabled then
                 (PacketQueue.new.push { packet_type := some 7, content := some "x" }).1
               else PacketQueue.new },
        [.disconnectCb] ++
          dropEvents
            (if (⟨true, true, true⟩ : TcpConfig).backlog_enabled then
              (PacketQueue.new.push { packet_type := some 7, content := some "x" }).2
             else none) ++
          [.errorCb (.exn 0)]) :=
  tcp_write_packet_absorbs_send_failure ⟨true, true, true⟩ ⟨true, true, PacketQueue.new⟩
    { packet_type := some 7, content := some "x" } (.error (.exn 0)) (.exn 0)
    rfl (by decide)

/-- A ControlCommand packet as `Session._send_control_command` builds it for
`clear_log()`: no timestamp, no data — two such packets are equal
dictionaries. -/
def dupPacket : Packet := { packet_type := some 1 }

/-- A backlog holding two equal packets (its tracked size is the invariant
sum). -/
def dupQueue : PacketQueue :=
  { entries := [dupPacket, dupPacket],
    size := PacketQueue.qsum [dupPacket, dupPacket],
    backlog := 2048 * 1024 }

/-- Send outcomes for the flush: the first `_internal_write_packet` call
succeeds, the second fails. -/
def dupOut : Nat → Except PyError Unit :=
  fun i => if i = 0 then .ok () else .error (.exn 1)

/-- C5 exhibit: flushing a backlog of two equal packets where the first send
succeeds and the second fails leaves BOTH copies re-queued —
`packets.index(packet)` finds the first (already sent) occurrence, so the
already-delivered copy is pushed back along with the failed one.  The claim
(and the code's own `# Re-queue remaining packets and stop` comment) requires
only the failed entry, `[dupPacket]`, to be re-queued.  The tear-down part
does happen (`connected` ends false). -/
theorem flush_queue_duplicate_requeues_sent_packet :
    (TcpProtocol.flush_queue ⟨true, true, dupQueue⟩ dupOut).1.queue.entries =
        [dupPacket, dupPacket] ∧
      ([dupPacket, dupPacket] : List Packet) ≠ [dupPacket] ∧
      (TcpProtocol.flush_queue ⟨true, true, dupQueue⟩ dupOut).1.connected = false := by
  decide

/-- Parameter names accepted by `TcpProtocol.__init__` (besides `self`),
from `protocol.py`. -/
def tcpProtocolInitParams : List String :=
  ["host", "port", "timeout", "app_name", "host_name", "room",
   "on_error", "on_connect", "on_disconnect",
   "reconnect", "reconnect_interval",
   "backlog_enabled", "backlog_queue", "backlog_keep_open"]

/-- Python call binding for keyword arguments: a keyword that matches no
declared parameter raises `TypeError: __init__() got an unexpected keyword
argument ...` before the function body ever runs (so no instance is
constructed and no connection is attempted). -/
def pyBindKeywords (params kwargs : List String) : Except PyError Unit :=
  if kwargs.all (fun k => params.contains k) then .ok () else .error .typeError

/-- Keyword names used by the `TcpProtocol(...)` construction in
`tests/test_async_dispatch.py` (`test_async_write_packet_is_non_blocking`). -/
def testAsyncDispatchKwargs : List String :=
  ["reconnect", "backlog_enabled", "async_enabled", "async_queue", "async_throttle"]

/-- C7 exhibit: `TcpProtocol` has no asynchronous mode at all.  Its
constructor accepts none of the `async_*` keywords (so the repo's own
async-dispatch test's constructor call raises `TypeError`), and `write_packet`
has no work-queue path: when connected it always performs the send inline. -/
theorem tcpProtocol_has_no_async_mode :
    pyBindKeywords tcpProtocolInitParams testAsyncDispatchKwargs = .error .typeError ∧
      tcpProtocolInitParams.contains "async_enabled" = false ∧
      tcpProtocolInitParams.contains "async_queue" = false ∧
      tcpProtocolInitParams.contains "async_throttle" = false := by
  decide

theorem except_bind_ok {ε α β : Type} (a : α) (f : α → Except ε β) :
    (Except.ok a : Except ε α) >>= f = f a := rfl

/-- The six tag values `BinaryFormatter.compile` recognizes, in dispatch
order. -/
def recognizedTags : List Int :=
  [PacketType.LOG_HEADER, PacketType.LOG_ENTRY, PacketType.WATCH,
   PacketType.PROCESS_FLOW, PacketType.CONTROL_COMMAND, PacketType.STREAM]

/-- Well-typedness of the `"data"` value for a given tag: LogEntry (4) and
ControlCommand (1) must not carry a truthy `str` (the `b"".join` would raise
`TypeError`); Stream (8) must not carry `bytes` (`.encode` would raise
`AttributeError`); all other packet kinds ignore `"data"`. -/
def dataWellTyped (t : Int) (d : Option DataVal) : Bool :=
  if t = 4 ∨ t = 1 then
    match d with
    | some (.str s) => s == ""
    | _ => true
  else if t = 8 then
    match d with
    | some (.bytes _) => false
    | _ => true
  else true

theorem dataTailJoin_ok_of_wellTyped (t : Int) (d : Option DataVal)
    (hteq : t = 4 ∨ t = 1) (hd : dataWellTyped t d = true) :
    ∃ tl, BinaryFormatter.dataTailJoin d = .ok tl := by
  cases d with
  | none => exact ⟨[], rfl⟩
  | some dv =>
      cases dv with
      | bytes b => exact ⟨_, rfl⟩
      | str s =>
          rw [dataWellTyped, if_pos hteq] at hd
          have hs : s = "" := by simpa using hd
          subst hs
          exact ⟨[], by rw [BinaryFormatter.dataTailJoin, if_pos rfl]⟩

theorem streamDataEnc_ok_of_wellTyped (d : Option DataVal)
    (hd : dataWellTyped 8 d = true) :
    ∃ tl, BinaryFormatter.streamDataEnc d = .ok tl := by
  cases d with
  | none => exact ⟨_, rfl⟩
  | some dv =>
      cases dv with
      | str s => exact ⟨_, rfl⟩
      | bytes b =>
          rw [dataWellTyped, if_neg (by norm_num), if_pos rfl] at hd
          simp at hd

theorem compile_log_header_ok (p : Packet) :
    ∃ body, BinaryFormatter.compile_log_header p = .ok body ∧ body ≠ [] := by
  unfold BinaryFormatter.compile_log_header
  simp only [write_int32_eq, except_bind_ok]
  exact ⟨_, rfl, by simp [le4]⟩

theorem compile_log_entry_ok (p : Packet)
    (hd : dataWellTyped 4 p.data = true) :
    ∃ body, BinaryFormatter.compile_log_entry p = .ok body ∧ body ≠ [] := by
  obtain ⟨tl, htl⟩ := dataTailJoin_ok_of_wellTyped 4 p.data (Or.inl rfl) hd
  unfold BinaryFormatter.compile_log_entry
  simp only [write_int32_eq, write_uint32_eq, htl, except_bind_ok]
  exact ⟨_, rfl, by simp [le4]⟩

theorem compile_watch_ok (p : Packet) :
    ∃ body, BinaryFormatter.compile_watch p = .ok body ∧ body ≠ [] := by
  unfold BinaryFormatter.compile_watch
  simp only [write_int32_eq, except_bind_ok]
  exact ⟨_, rfl, by simp [le4]⟩

theorem compile_process_flow_ok (p : Packet) :
    ∃ body, BinaryFormatter.compile_process_flow p = .ok body ∧ body ≠ [] := by
  unfold BinaryFormatter.compile_process_flow
  simp only [write_int32_eq, except_bind_ok]
  exact ⟨_, rfl, by simp [le4]⟩

theorem compile_control_command_ok (p : Packet)
    (hd : dataWellTyped 1 p.data = true) :
    ∃ body, BinaryFormatter.compile_control_command p = .ok body ∧ body ≠ [] := by
  obtain ⟨tl, htl⟩ := dataTailJoin_ok_of_wellTyped 1 p.data (Or.inr rfl) hd
  unfold BinaryFormatter.compile_control_command
  simp only [write_int32_eq, htl, except_bind_ok]
  exact ⟨_, rfl, by simp [le4]⟩

theorem compile_stream_ok (p : Packet)
    (hd : dataWellTyped 8 p.data = true) :
    ∃ body, BinaryFormatter.compile_stream p = .ok body ∧ body ≠ [] := by
  obtain ⟨tl, htl⟩ := streamDataEnc_ok_of_wellTyped p.data hd
  unfold BinaryFormatter.compile_stream
  simp only [write_int32_eq, htl, except_bind_ok]
  exact ⟨_, rfl, by simp [le4]⟩

/-- Given a compiled non-empty body and an in-range tag, `format` emits the
2-byte tag, the 4-byte length and the body. -/
theorem format_of_compile_ok (p : Packet) (t : Int) (body : List Nat)
    (hpt : p.packet_type = some t) (h1 : -32768 ≤ t) (h2 : t ≤ 32767)
    (h3 : 0 ≤ t)
    (hc : BinaryFormatter.compile p = .ok body) (hne : body ≠ []) :
    BinaryFormatter.format p =
      .ok (le2 t.toNat ++ le4 (body.length % 4294967296) ++ body) := by
  have h16 : BinaryFormatter.write_int16 t = .ok (le2 t.toNat) := by
    unfold BinaryFormatter.write_int16 structPackI16
    rw [if_pos ⟨h1, h2⟩, Int.emod_eq_of_lt h3 (by omega)]
  unfold BinaryFormatter.format
  rw [hc]
  simp only [except_bind_ok]
  rw [if_pos (List.length_pos.mpr hne), hpt]
  simp only [Option.getD_some, h16, except_bind_ok, write_int32_eq]
  rw [toNat_emod_cast]

/-- C3 (amended): For every packet whose tag is one of the six recognized
variants and whose `"data"` value is well-typed for that variant,
`BinaryFormatter.format` produces exactly the 2-byte little-endian tag,
followed by the 4-byte little-endian body length (the length taken mod `2^32`,
which equals the length for every body under 4 GiB), followed by the body (a
non-empty byte string); for every packet whose tag is not recognized (or
absent) it produces an empty buffer.  `format` is a pure function of the
packet in this embedding, hence deterministic; the only failure path besides
an unrecognized tag is an ill-typed `"data"` value (see
`format_raises_on_str_data`). -/
theorem binaryFormatter_format_shape (p : Packet) :
    (∀ t : Int, p.packet_type = some t → t ∈ recognizedTags →
        dataWellTyped t p.data = true →
        ∃ body, BinaryFormatter.compile p = .ok body ∧ body ≠ [] ∧
          BinaryFormatter.format p =
            .ok (le2 t.toNat ++ le4 (body.length % 4294967296) ++ body)) ∧
    (∀ t : Int, p.packet_type = some t → t ∉ recognizedTags →
        BinaryFormatter.format p = .ok []) ∧
    (p.packet_type = none → BinaryFormatter.format p = .ok []) := by
  refine ⟨?_, ?_, ?_⟩
  · intro t hpt ht hd
    have hmem : t = 7 ∨ t = 4 ∨ t = 5 ∨ t = 6 ∨ t = 1 ∨ t = 8 := by
      simpa [recognizedTags, PacketType.LOG_HEADER, PacketType.LOG_ENTRY,
        PacketType.WATCH, PacketType.PROCESS_FLOW, PacketType.CONTROL_COMMAND,
        PacketType.STREAM] using ht
    rcases hmem with h | h | h | h | h | h <;> subst h
    · obtain ⟨body, hb, hne⟩ := compile_log_header_ok p
      have hc : BinaryFormatter.compile p = .ok body := by
        unfold BinaryFormatter.compile
        rw [hpt, if_pos (by decide)]
        exact hb
      exact ⟨body, hc, hne,
        format_of_compile_ok p 7 body hpt (by norm_num) (by norm_num) (by norm_num) hc hne⟩
    · obtain ⟨body, hb, hne⟩ := compile_log_entry_ok p hd
      have hc : BinaryFormatter.compile p = .ok body := by
        unfold BinaryFormatter.compile
        rw [hpt, if_neg (by decide), if_pos (by decide)]
        exact hb
      exact ⟨body, hc, hne,
        format_of_compile_ok p 4 body hpt (by norm_num) (by norm_num) (by norm_num) hc hne⟩
    · obtain ⟨body, hb, hne⟩ := compile_watch_ok p
      have hc : BinaryFormatter.compile p = .ok body := by
        unfold BinaryFormatter.compile
        rw [hpt, if_neg (by decide), if_neg (by decide), if_pos (by decide)]
        exact hb
      exact ⟨body, hc, hne,
        format_of_compile_ok p 5 body hpt (by norm_num) (by norm_num) (by norm_num) hc hne⟩
    · obtain ⟨body, hb, hne⟩ := compile_process_flow_ok p
      have hc : BinaryFormatter.compile p = .ok body := by
        unfold BinaryFormatter.compile
        rw [hpt, if_neg (by decide), if_neg (by decide), if_neg (by decide),
          if_pos (by decide)]
        exact hb
      exact ⟨body, hc, hne,
        format_of_compile_ok p 6 body hpt (by norm_num) (by norm_num) (by norm_num) hc hne⟩
    · obtain ⟨body, hb, hne⟩ := compile_control_command_ok p hd
      have hc : BinaryFormatter.compile p = .ok body := by
        unfold BinaryFormatter.compile
        rw [hpt, if_neg (by decide), if_neg (by decide), if_neg (by decide),
          if_neg (by decide), if_pos (by decide)]
        exact hb
      exact ⟨body, hc, hne,
        format_of_compile_ok p 1 body hpt (by norm_num) (by norm_num) (by norm_num) hc hne⟩
    · obtain ⟨body, hb, hne⟩ := compile_stream_ok p hd
      have hc : BinaryFormatter.compile p = .ok body := by
        unfold BinaryFormatter.compile
        rw [hpt, if_neg (by decide), if_neg (by decide), if_neg (by decide),
          if_neg (by decide), if_neg (by decide), if_pos (by decide)]
        exact hb
      exact ⟨body, hc, hne,
        format_of_compile_ok p 8 body hpt (by norm_num) (by norm_num) (by norm_num) hc hne⟩
  · intro t hpt ht
    simp only [recognizedTags, PacketType.LOG_HEADER, PacketType.LOG_ENTRY,
      PacketType.WATCH, PacketType.PROCESS_FLOW, PacketType.CONTROL_COMMAND,
      PacketType.STREAM, List.mem_cons, List.not_mem_nil, or_false,
      not_or] at ht
    obtain ⟨h7, h4, h5, h6, h1, h8⟩ := ht
    have hc : BinaryFormatter.compile p = .ok [] := by
      unfold BinaryFormatter.compile
      rw [hpt, if_neg (by simp [PacketType.LOG_HEADER, h7]),
        if_neg (by simp [PacketType.LOG_ENTRY, h4]),
        if_neg (by simp [PacketType.WATCH, h5]),
        if_neg (by simp [PacketType.PROCESS_FLOW, h6]),
        if_neg (by simp [PacketType.CONTROL_COMMAND, h1]),
        if_neg (by simp [PacketType.STREAM, h8])]
    unfold BinaryFormatter.format
    rw [hc]
    rfl
  · intro hpt
    have hc : BinaryFormatter.compile p = .ok [] := by
      unfold BinaryFormatter.compile
      rw [hpt, if_neg (by decide), if_neg (by decide), if_neg (by decide),
        if_neg (by decide), if_neg (by decide), if_neg (by decide)]
    unfold BinaryFormatter.format
    rw [hc]
    rfl

/-- A LogHeader packet as the protocol sends it on connect. -/
def lhPacket : Packet := { packet_type := some 7, content := some "room=r" }

/-- C3 witness: the amended theorem applied to a concrete LogHeader packet. -/
theorem binaryFormatter_format_shape_witness :
    ∃ body, BinaryFormatter.compile lhPacket = .ok body ∧ body ≠ [] ∧
      BinaryFormatter.format lhPacket =
        .ok (le2 (7 : Int).toNat ++ le4 (body.length % 4294967296) ++ body) :=
  (binaryFormatter_format_shape lhPacket).1 7 rfl (by decide) (by decide)

/-- A LogEntry packet (recognized tag 4) whose `"data"` value is the
non-empty `str` `"x"` — constructible through the public
`send_log_entry`/`send_custom_log_entry` API, which forwards arbitrary
`data`. -/
def illTypedLogEntry : Packet := { packet_type := some 4, data := some (.str "x") }

/-- C3 counterexample: on a packet with a recognized tag `format` can raise
(`b"".join` meets a `str` element and raises `TypeError`) instead of producing
the 2-byte tag + 4-byte length + body — so "no other failure path" and the
universal wire-shape statement are both false as stated. -/
theorem format_raises_on_str_data :
    BinaryFormatter.format illTypedLogEntry = .error .typeError ∧
      (4 : Int) ∈ recognizedTags := by
  decide

/-- The claim's concrete LogEntry packet: `app_name="App"`, `title="Hello"`,
`data=b"abc"` and all string fields populated. -/
def c4Packet : Packet :=
  { packet_type := some 4, app_name := some "App", session_name := some "Sess",
    title := some "Hello", host_name := some "Host",
    data := some (.bytes [97, 98, 99]),
    log_entry_type := 100, viewer_id := 0, process_id := 1234,
    thread_id := 5678, timestamp8 := [1, 2, 3, 4, 5, 6, 7, 8] }

/-- C4 counterexample: in the body `compile_log_entry` produces for
`c4Packet`, the int32 at byte offset 16 is 5 — the title length
(`len("Hello")`), the fifth of the header fields
entryType(0) viewerId(4) appNameLen(8) sessionNameLen(12) titleLen(16) — and
not the data length 3.  The data-length field is NOT at byte offset 16. -/
theorem compile_log_entry_offset16_is_title_len :
    (BinaryFormatter.compile_log_entry c4Packet).map (fun b => (b.drop 16).take 4) =
        .ok [5, 0, 0, 0] ∧
      ([5, 0, 0, 0] : List Nat) ≠ [3, 0, 0, 0] := by
  decide

/-- C4 (amended): for the claim's LogEntry packet the data-length field
(value 3 = `len(b"abc")`) sits at byte offset 24 of the encoded body and the
`process_id` field (1234 = `0x04D2`, little-endian `[210, 4, 0, 0]`) at byte
offset 28, matching the declared layout entryType(0) viewerId(4)
appNameLen(8) sessionNameLen(12) titleLen(16) hostNameLen(20) dataLen(24)
pid(28) tid(32) timestamp(36) color(44). -/
theorem compile_log_entry_offsets :
    (BinaryFormatter.compile_log_entry c4Packet).map
        (fun b => ((b.drop 24).take 4, (b.drop 28).take 4)) =
      .ok ([3, 0, 0, 0], [210, 4, 0, 0]) := by
  decide

/-- Python whitespace for `str.strip()` (space, tab, newline, carriage
return, vertical tab, form feed). -/
def pySpace (c : Char) : Bool :=
  c == ' ' || c == '\t' || c == '\n' || c == '\r' ||
    c.toNat == 11 || c.toNat == 12

/-- Model of `str.strip()`. -/
def pyStrip (cs : List Char) : List Char :=
  ((cs.dropWhile pySpace).reverse.dropWhile pySpace).reverse

/-- Model of `str.lower()` (ASCII; the keys and values the parser handles are
ASCII). -/
def pyLower (cs : List Char) : List Char := cs.map Char.toLower

/-- Accumulate decimal digits. -/
def natOfDigits (cs : List Char) : Nat :=
  cs.foldl (fun acc c => acc * 10 + (c.toNat - 48)) 0

/-- Digit run for `int()`: non-empty, all decimal digits, else `ValueError`.
(Underscore grouping and non-ASCII digits are not modelled; the inputs the
claims exercise are plain decimal.) -/
def pyIntDigits (cs : List Char) : Except PyError Nat :=
  if cs.isEmpty = false ∧ cs.all Char.isDigit then .ok (natOfDigits cs)
  else .error .valueError

/-- Python `int(str)`: strip, optional sign, decimal digits. -/
def pyInt (cs : List Char) : Except PyError Int :=
  match pyStrip cs with
  | '-' :: rest => (pyIntDigits rest).map (fun n => -(n : Int))
  | '+' :: rest => (pyIntDigits rest).map (fun n => (n : Int))
  | t => (pyIntDigits t).map (fun n => (n : Int))

/-- Unsigned decimal form `digits [. digits]` for `float()`: yields
`(mantissa, scale)` meaning `mantissa / 10^scale`.  (Exponent, `inf` and
`nan` forms are not modelled; no claim exercises them.) -/
def pyFloatDigits (cs : List Char) : Except PyError (Nat × Nat) :=
  let intPart := cs.takeWhile Char.isDigit
  match cs.drop intPart.length with
  | [] =>
      if intPart.isEmpty then .error .valueError
      else .ok (natOfDigits intPart, 0)
  | '.' :: frac =>
      if frac.all Char.isDigit ∧ ¬(intPart.isEmpty ∧ frac.isEmpty) then
        .ok (natOfDigits intPart * 10 ^ frac.length + natOfDigits frac, frac.length)
      else .error .valueError
  | _ => .error .valueError

/-- Python `float(str)` as an exact rational `(mantissa, scale)`. -/
def pyFloatQ (cs : List Char) : Except PyError (Int × Nat) :=
  match pyStrip cs with
  | '-' :: rest => (pyFloatDigits rest).map (fun r => (-(r.1 : Int), r.2))
  | '+' :: rest => (pyFloatDigits rest).map (fun r => ((r.1 : Int), r.2))
  | t => (pyFloatDigits t).map (fun r => ((r.1 : Int), r.2))

/-- A parsed connection-string option value: string, integer, boolean, or an
exact rational `num / 10^scale` standing for a Python float. -/
inductive OptVal where
  | vstr (s : String)
  | vint (n : Int)
  | vbool (b : Bool)
  | vrat (num : Int) (scale : Nat)
deriving DecidableEq, Repr

/-- Model of `options[key] = value` on a Python dict modelled as an insertion-ordered
association list: overwrite in place, else append. -/
def dictSet (opts : List (String × OptVal)) (k : String) (v : OptVal) :
    List (String × OptVal) :=
  if opts.any (fun kv => kv.1 == k) then
    opts.map (fun kv => if kv.1 == k then (k, v) else kv)
  else opts ++ [(k, v)]

/-- Model of `text[:-n]`. -/
def dropLastN (cs : List Char) (n : Nat) : List Char := cs.take (cs.length - n)

/-- Model of `text.endswith(suffix)`. -/
def endsWithL (cs suf : List Char) : Bool := suf.isSuffixOf cs

/-- Model of `SmartInspect._parse_boolean`: strip, lower, membership in
`("true", "1", "yes")`. -/
def parse_boolean (cs : List Char) : Bool :=
  let t := pyLower (pyStrip cs)
  t == "true".data || t == "1".data || t == "yes".data

/-- Model of `SmartInspect._parse_level` on a string value: the name-to-`Level`
mapping, defaulting to `Level.ERROR` (4). -/
def parse_level_str (cs : List Char) : Int :=
  let t := pyLower (pyStrip cs)
  if t = "debug".data then 0
  else if t = "verbose".data then 1
  else if t = "message".data then 2
  else if t = "warning".data then 3
  else if t = "error".data then 4
  else if t = "fatal".data then 5
  else if t = "control".data then 6
  else 4

/-- Model of `SmartInspect._parse_timespan_seconds` on a string value: `"...ms"` is
float milliseconds, `"...s"` float seconds, a bare number is milliseconds. -/
def parse_timespan_seconds (cs : List Char) : Except PyError OptVal :=
  let text := pyLower (pyStrip cs)
  if endsWithL text "ms".data then
    (pyFloatQ (pyStrip (dropLastN text 2))).map (fun r => .vrat r.1 (r.2 + 3))
  else if endsWithL text "s".data then
    (pyFloatQ (pyStrip (dropLastN text 1))).map (fun r => .vrat r.1 r.2)
  else (pyFloatQ text).map (fun r => .vrat r.1 (r.2 + 3))

/-- Model of `int(float(x))`: truncation toward zero of `mantissa / 10^scale`. -/
def truncRat (num : Int) (scale : Nat) : Int := Int.tdiv num ((10 : Int) ^ scale)

/-- Model of `SmartInspect._parse_size_kb` on a string value: `kb`/`mb`/`gb` suffixes,
else a bare number of kilobytes; `int(float(...))` truncates. -/
def parse_size_kb (cs : List Char) : Except PyError Int :=
  let text := pyLower (pyStrip cs)
  if endsWithL text "kb".data then
    (pyFloatQ (pyStrip (dropLastN text 2))).map (fun r => truncRat r.1 r.2)
  else if endsWithL text "mb".data then
    (pyFloatQ (pyStrip (dropLastN text 2))).map (fun r => truncRat (r.1 * 1024) r.2)
  else if endsWithL text "gb".data then
    (pyFloatQ (pyStrip (dropLastN text 2))).map (fun r => truncRat (r.1 * 1024 * 1024) r.2)
  else (pyFloatQ text).map (fun r => truncRat r.1 r.2)

/-- Model of `re.match(r"tcp\(([^)]+)\)", conn_str, re.IGNORECASE)`: an anchored,
case-insensitive literal `tcp(`, then a non-empty greedy run of
non-`)` characters, then `)`; trailing characters are ignored
(`match`, not `fullmatch`).  Returns group 1. -/
def regexTcpGroup (cs : List Char) : Option (List Char) :=
  match cs with
  | t :: c :: p :: lp :: rest =>
      if t.toLower = 't' ∧ c.toLower = 'c' ∧ p.toLower = 'p' ∧ lp = '(' then
        let grp := rest.takeWhile (fun ch => ch ≠ ')')
        if grp.isEmpty then none
        else
          match rest.drop grp.length with
          | ')' :: _ => some grp
          | _ => none
      else none
  | _ => none

/-- Model of `group(1).split(",")`. -/
def splitCommas : List Char → List (List Char)
  | [] => [[]]
  | c :: rest =>
      if c = ',' then [] :: splitCommas rest
      else
        match splitCommas rest with
        | [] => [[c]]
        | g :: gs => (c :: g) :: gs

/-- Model of `pair.find("=")`: index of the first `=`, if any (`-1` means the pair is
skipped). -/
def idxOfEq : List Char → Option Nat
  | [] => none
  | c :: rest => if c = '=' then some 0 else (idxOfEq rest).map (· + 1)

namespace SmartInspect

/-- One iteration of the `for pair in match.group(1).split(","):` loop of
`SmartInspect.parse_connection_string`: locate `=`, strip+lower the key,
strip the value, and dispatch on the key exactly as the `if`/`elif` chain in
the source does.  Unrecognized keys are ignored. -/
def parsePair (opts : List (String × OptVal)) (pair : List Char) :
    Except PyError (List (String × OptVal)) :=
  match idxOfEq pair with
  | none => .ok opts
  | some i =>
      let key := pyLower (pyStrip (pair.take i))
      let value := pyStrip (pair.drop (i + 1))
      if key = "host".data then .ok (dictSet opts "host" (.vstr (String.mk value)))
      else if key = "port".data then
        (pyInt value).map (fun n => dictSet opts "port" (.vint n))
      else if key = "timeout".data then
        (pyFloatQ value).map (fun r => dictSet opts "timeout" (.vrat r.1 r.2))
      else if key = "room".data then .ok (dictSet opts "room" (.vstr (String.mk value)))
      else if key = "reconnect".data then
        .ok (dictSet opts "reconnect" (.vbool (parse_boolean value)))
      else if key = "reconnect.interval".data then
        (parse_timespan_seconds value).map (dictSet opts "reconnect_interval")
      else if key = "backlog.enabled".data then
        .ok (dictSet opts "backlog_enabled" (.vbool (parse_boolean value)))
      else if key = "backlog.queue".data then
        (parse_size_kb value).map (fun n => dictSet opts "backlog_queue" (.vint n))
      else if key = "backlog.keepopen".data then
        .ok (dictSet opts "backlog_keep_open" (.vbool (parse_boolean value)))
      else if key = "backlog.flushon".data then
        .ok (dictSet opts "backlog_flush_on" (.vint (parse_level_str value)))
      else if key = "backlog".data then
        (parse_size_kb value).map (fun size =>
          if 0 < size then
            dictSet (dictSet opts "backlog_enabled" (.vbool true))
              "backlog_queue" (.vint size)
          else dictSet opts "backlog_enabled" (.vbool false))
      else if key = "flushon".data then
        .ok (dictSet opts "backlog_flush_on" (.vint (parse_level_str value)))
      else if key = "keepopen".data then
        .ok (dictSet opts "backlog_keep_open" (.vbool (parse_boolean value)))
      else if key = "async.enabled".data then
        .ok (dictSet opts "async_enabled" (.vbool (parse_boolean value)))
      else if key = "async.queue".data then
        (parse_size_kb value).map (fun n => dictSet opts "async_queue" (.vint n))
      else if key = "async.throttle".data then
        .ok (dictSet opts "async_throttle" (.vbool (parse_boolean value)))
      else if key = "async.clearondisconnect".data then
        .ok (dictSet opts "async_clear_on_disconnect" (.vbool (parse_boolean value)))
      else .ok opts

/-- The pair loop. -/
def parsePairs (opts : List (String × OptVal)) :
    List (List Char) → Except PyError (List (String × OptVal))
  | [] => .ok opts
  | pair :: rest => do
      let opts2 ← parsePair opts pair
      parsePairs opts2 rest

/-- Model of `SmartInspect.parse_connection_string`: no `tcp(...)` match yields an
empty options dict; otherwise the comma-separated `key=value` pairs are
folded into the dict. -/
def parse_connection_string (s : String) : Except PyError (List (String × OptVal)) :=
  match regexTcpGroup s.data with
  | none => .ok []
  | some grp => parsePairs [] (splitCommas grp)

end SmartInspect

/-- C8: Parsing `tcp(host=127.0.0.1,port=4229,room=X,async.enabled=true)`
yields exactly `{host: "127.0.0.1", port: 4229, room: "X",
async_enabled: true}`, in insertion order, with no other keys set, and does
not raise. -/
theorem parse_connection_string_c8 :
    SmartInspect.parse_connection_string
        "tcp(host=127.0.0.1,port=4229,room=X,async.enabled=true)" =
      .ok [("host", .vstr "127.0.0.1"), ("port", .vint 4229),
        ("room", .vstr "X"), ("async_enabled", .vbool true)] := by
  decide

/-- Keyword names `SmartInspect.connect` uses in its `TcpProtocol(...)`
construction (`smartinspect.py`, the call at the end of `connect`).  The
argument VALUES of `connect` (host, port, callbacks, parsed options, the
WSL-host fallback…) only flow into these keywords' values, never into the set
of names, so call binding is the same for every call. -/
def smartInspectConnectTcpKwargs : List String :=
  ["host", "port", "timeout", "app_name", "host_name", "room",
   "on_error", "on_connect", "on_disconnect",
   "reconnect", "reconnect_interval",
   "backlog_enabled", "backlog_queue", "backlog_keep_open",
   "backlog_flush_on", "async_enabled", "async_queue", "async_throttle",
   "async_clear_on_disconnect"]

/-- Reaching this outcome would mean the `TcpProtocol` instance was
constructed and `self.protocol.connect()` then started a connection
attempt. -/
inductive ConnectOutcome where
  | protocolStarted
deriving DecidableEq, Repr

namespace SmartInspect

/-- The connection-string phase of `SmartInspect.connect`: with a connection
string, expand variables (the identity for a fresh instance — `_variables` is
empty and an unmatched placeholder is replaced by itself) and parse it; parse
errors such as `int("x")` propagate out of `connect`. -/
def connectParsePhase (cs : Option String) :
    Except PyError (List (String × OptVal)) :=
  match cs with
  | some s => parse_connection_string s
  | none => .ok []

/-- Model of `SmartInspect.connect`: after the connection-string phase, construct
`TcpProtocol(**smartInspectConnectTcpKwargs)` — Python binds the keyword
names against `TcpProtocol.__init__`'s parameters before the body runs, and
an unexpected keyword raises `TypeError` there, so the
`self.protocol.connect()` call on the following line is never reached. -/
def connect (connection_string : Option String) : Except PyError ConnectOutcome :=
  match connectParsePhase connection_string with
  | .error e => .error e
  | .ok _options =>
      match pyBindKeywords tcpProtocolInitParams smartInspectConnectTcpKwargs with
      | .error e => .error e
      | .ok _ => .ok .protocolStarted

end SmartInspect

/-- C9 counterexample: a call with a malformed connection string raises
`ValueError` (from `int("x")` inside `parse_connection_string`), not
`TypeError` — so "every call raises TypeError" is false as stated, although
this call too fails before any connection attempt. -/
theorem connect_malformed_port_raises_valueError :
    SmartInspect.connect (some "tcp(port=x)") = .error .valueError ∧
      PyError.valueError ≠ PyError.typeError := by
  decide

/-- C9 (amended): Every `SmartInspect.connect` call whose connection-string
handling succeeds (in particular every call without a connection string)
raises `TypeError` before any connection attempt: `connect` always forwards
the keywords `backlog_flush_on`, `async_enabled`, `async_queue`,
`async_throttle` and `async_clear_on_disconnect` to `TcpProtocol(...)`, and
`TcpProtocol.__init__` accepts none of them, so Python's call binding raises
before the constructor body runs.  Consequently no call ever returns
successfully — no `TcpProtocol` instance is ever constructed through
`SmartInspect.connect` (calls with a malformed connection string fail even
earlier, with the parse error). -/
theorem smartInspect_connect_always_raises (cs : Option String) :
    (∀ opts, SmartInspect.connectParsePhase cs = .ok opts →
        SmartInspect.connect cs = .error .typeError) ∧
    (∀ r, SmartInspect.connect cs ≠ .ok r) := by
  have hbind : pyBindKeywords tcpProtocolInitParams smartInspectConnectTcpKwargs =
      .error .typeError := by decide
  constructor
  · intro opts hopts
    unfold SmartInspect.connect
    rw [hopts, hbind]
  · intro r
    unfold SmartInspect.connect
    cases hp : SmartInspect.connectParsePhase cs with
    | ok opts =>
        rw [hbind]
        intro h
        exact Except.noConfusion h
    | error e =>
        intro h
        exact Except.noConfusion h

/-- C9 witness: the amended theorem at a call without a connection string. -/
theorem smartInspect_connect_always_raises_witness :
    SmartInspect.connect none = .error .typeError :=
  (smartInspect_connect_always_raises none).1 [] rfl
